import Mathlib

/-!
Verification of the batched audio-feature fetch of the
spotify-playlist-generator repository.

The repository contains two implementations of the batch feature fetcher:

* `src/data_collection.py`, `get_audio_features(track_ids)` (lines 67-125):
  walks the id list in slices of 10 (`range(0, len(track_ids), 10)`,
  `track_ids[i:i+10]`) but then requests the features of **each track
  individually** (`spotify.audio_features(track_id)[0]`), appending the
  record when it is non-null, catching any per-track exception (printing
  `Error getting features for track {id}: {e}` and continuing), and
  catching any per-batch exception (printing
  `Error processing batch {n}: {e}` and continuing).

* `src/audio_check.py`, `get_audio_features(spotify, track_ids)`
  (lines 41-70): walks the id list in slices of 20, drops falsy (empty)
  ids from each slice, performs **one** provider request per slice
  (`spotify._get("audio-features?ids=...")`), appends every non-null
  record of the response, and catches any per-batch exception (printing
  `Error processing batch {n}: {e}` and continuing).

Both return only the collected feature rows (a DataFrame); no failure
set is part of the returned value.  The embedding below records, next to
the collected feature rows, the sequence of provider invocations and the
printed error log, so that call-counting and error-reporting claims can
be stated.

`collect_and_save_user_data` (data_collection.py, lines 201-258) is
modelled at the end of the definitions: its genre-recommendation step
(line 239) reads the name `spotify`, which is bound neither in the
function body nor at module level of data_collection.py, so reaching it
raises a `NameError` that the function's catch-all handler (line 257)
swallows.
-/

/-- A feature row as produced by the provider: the fixed column set that
both implementations select (`['id', 'danceability', 'energy', 'key',
'loudness', 'mode', 'speechiness', 'acousticness', 'instrumentalness',
'liveness', 'valence', 'tempo']`).  Numeric values are modelled as
integers; the claims only inspect the `id` column and whole-record
equality. -/
structure FeatureRecord where
  id : String
  danceability : Int
  energy : Int
  key : Int
  loudness : Int
  mode : Int
  speechiness : Int
  acousticness : Int
  instrumentalness : Int
  liveness : Int
  valence : Int
  tempo : Int
deriving DecidableEq, Repr

/-- Outcome of one run of a fetcher: the collected feature rows (the
value the Python function returns as a DataFrame), the arguments of the
provider invocations it made, in order, and the printed error log.
`α` is the argument type of one provider invocation: a chunk of ids for
audio_check.py, a single id for data_collection.py. -/
structure RunResult (α : Type) where
  features : List FeatureRecord
  calls : List α
  log : List String
deriving DecidableEq, Repr

/-- Provider capability as audio_check.py uses it: one request per chunk
of ids (`spotify._get("audio-features?ids=...")`), answering a list of
possibly-null records (`response.get('audio_features', [])`) or failing
with an exception message. -/
abbrev ProviderAC := List String → Except String (List (Option FeatureRecord))

/-- Provider capability as data_collection.py uses it: one request per
single track id (`spotify.audio_features(track_id)`), answering a list
of possibly-null records (the code reads element `[0]`) or failing with
an exception message. -/
abbrev ProviderDC := String → Except String (List (Option FeatureRecord))

/-- Fuel-indexed slicing loop: `chunkListFuel k fuel l` mirrors
`[l[i:i+k] for i in range(0, len(l), k)]` as long as `fuel ≥ len(l)`.
The fuel makes the recursion structural (each step consumes
`l.drop (k-1)`, which is no longer than `l`'s tail). -/
def chunkListFuel (k : Nat) : Nat → List α → List (List α)
  | _, [] => []
  | 0, _ :: _ => []
  | fuel + 1, a :: l => (a :: l.take (k - 1)) :: chunkListFuel k fuel (l.drop (k - 1))

/-- `chunkList k l` is the chunk sequence both Python loops build:
consecutive slices `l[i:i+k]` for `i = 0, k, 2k, ...`. -/
def chunkList (k : Nat) (l : List α) : List (List α) :=
  chunkListFuel k l.length l

/-- The per-chunk loop body of audio_check.py's `get_audio_features`
(lines 52-64), over the remaining chunk list, carrying the 1-based batch
number used in the error message (`i//20 + 1`).  Each chunk is first
cleaned of falsy ids (`[tid for tid in track_ids[i:i+20] if tid]`), the
provider is invoked once on the cleaned batch, non-null records of a
successful response are appended in order, and a failing response is
printed and skipped (`except ... continue`). -/
def acRunChunks (p : ProviderAC) : Nat → List (List String) → RunResult (List String)
  | _, [] => ⟨[], [], []⟩
  | idx, c :: cs =>
    match p (c.filter (fun tid => !(tid == ""))) with
    | Except.ok features =>
        ⟨features.filterMap id ++ (acRunChunks p (idx + 1) cs).features,
         c.filter (fun tid => !(tid == "")) :: (acRunChunks p (idx + 1) cs).calls,
         (acRunChunks p (idx + 1) cs).log⟩
    | Except.error e =>
        ⟨(acRunChunks p (idx + 1) cs).features,
         c.filter (fun tid => !(tid == "")) :: (acRunChunks p (idx + 1) cs).calls,
         ("Error processing batch " ++ toString idx ++ ": " ++ e) :: (acRunChunks p (idx + 1) cs).log⟩

/-- audio_check.py's `get_audio_features` with the slice width as an
explicit parameter (the source hard-codes 20): early return of the empty
DataFrame on empty input (lines 48-49), then the chunked loop. -/
def acFetchK (k : Nat) (p : ProviderAC) (track_ids : List String) : RunResult (List String) :=
  if track_ids.isEmpty then ⟨[], [], []⟩
  else acRunChunks p 1 (chunkList k track_ids)

/-- audio_check.py's `get_audio_features`, slice width 20 as in the
source (`range(0, len(track_ids), 20)`). -/
def acFetch : ProviderAC → List String → RunResult (List String) :=
  acFetchK 20

/-- The value audio_check.py's `get_audio_features` returns to its
caller: the DataFrame of collected feature rows (projected onto the
fixed column set, the identity on `FeatureRecord`), `empty_df` when
nothing was collected. -/
def ac_get_audio_features (p : ProviderAC) (track_ids : List String) : List FeatureRecord :=
  (acFetch p track_ids).features

/-- The per-track body of data_collection.py's `get_audio_features`
(lines 91-101): one provider invocation for the single track,
`feature = spotify.audio_features(track_id)[0]`; a raising invocation or
an empty response list (whose `[0]` raises `IndexError`) is printed and
skipped, a null `feature` is silently dropped, a non-null one is the
record to append.  Returns (record to append, printed lines). -/
def dcTrackStep (q : ProviderDC) (t : String) : Option FeatureRecord × List String :=
  match q t with
  | Except.error e => (none, ["Error getting features for track " ++ t ++ ": " ++ e])
  | Except.ok [] => (none, ["Error getting features for track " ++ t ++ ": list index out of range"])
  | Except.ok (none :: _) => (none, [])
  | Except.ok (some f :: _) => (some f, [])

/-- The inner `for track_id in batch` loop of data_collection.py
(lines 91-101). -/
def dcRunTracks (q : ProviderDC) : List String → RunResult String
  | [] => ⟨[], [], []⟩
  | t :: ts =>
    ⟨(dcTrackStep q t).1.toList ++ (dcRunTracks q ts).features,
     t :: (dcRunTracks q ts).calls,
     (dcTrackStep q t).2 ++ (dcRunTracks q ts).log⟩

/-- The outer batch loop of data_collection.py (lines 87-107): each
slice of the id list is handed unfiltered to the inner per-track loop;
the batch-level handler (lines 105-107) has nothing left to catch in
this model because every fallible step is already caught per track. -/
def dcRunChunks (q : ProviderDC) : List (List String) → RunResult String
  | [] => ⟨[], [], []⟩
  | c :: cs =>
    ⟨(dcRunTracks q c).features ++ (dcRunChunks q cs).features,
     (dcRunTracks q c).calls ++ (dcRunChunks q cs).calls,
     (dcRunTracks q c).log ++ (dcRunChunks q cs).log⟩

/-- data_collection.py's `get_audio_features` with the slice width as an
explicit parameter (the source hard-codes 10): early return of the empty
DataFrame on empty input (lines 79-80), then the batch loop. -/
def dcFetchK (k : Nat) (q : ProviderDC) (track_ids : List String) : RunResult String :=
  if track_ids.isEmpty then ⟨[], [], []⟩
  else dcRunChunks q (chunkList k track_ids)

/-- data_collection.py's `get_audio_features`, slice width 10 as in the
source (`range(0, len(track_ids), 10)`). -/
def dcFetch : ProviderDC → List String → RunResult String :=
  dcFetchK 10

/-- The value data_collection.py's `get_audio_features` returns to its
caller: the DataFrame of collected feature rows, `empty_df` when nothing
was collected. -/
def dc_get_audio_features (q : ProviderDC) (track_ids : List String) : List FeatureRecord :=
  (dcFetch q track_ids).features

/-- The non-null records of one provider response; what the loops append
for a successful chunk, nothing for a failed one. -/
def okRecords : Except String (List (Option FeatureRecord)) → List FeatureRecord
  | Except.ok l => l.filterMap id
  | Except.error _ => []

/-- Whether a provider response is a failure. -/
def isErrResp : Except String (List (Option FeatureRecord)) → Bool
  | Except.ok _ => false
  | Except.error _ => true

/-- A feature row for a given id with all numeric columns zero; used to
build concrete provider behaviours. -/
def mkRec (i : String) : FeatureRecord :=
  ⟨i, 0, 0, 0, 0, 0, 0, 0, 0, 0, 0, 0⟩

/-- Chunk provider that always succeeds with an empty record list. -/
def okEmptyAC : ProviderAC := fun _ => Except.ok []

/-- Per-track provider that always succeeds with an empty record list. -/
def okEmptyDC : ProviderDC := fun _ => Except.ok []

/-- Chunk provider that always fails. -/
def failAC : ProviderAC := fun _ => Except.error "boom"

/-- Per-track provider that always fails. -/
def failDC : ProviderDC := fun _ => Except.error "boom"

/-- Chunk provider that answers exactly one record per queried id. -/
def echoAC : ProviderAC := fun c => Except.ok (c.map (fun t => some (mkRec t)))

/-- Per-track provider that answers exactly the queried track's record. -/
def echoDC : ProviderDC := fun t => Except.ok [some (mkRec t)]

/-- Chunk provider that answers a record for an id that was never asked
for, regardless of the queried chunk. -/
def unrelatedAC : ProviderAC := fun _ => Except.ok [some (mkRec "zzz")]

/-- Chunk provider that answers the same record twice for every chunk. -/
def dupAC : ProviderAC := fun _ => Except.ok [some (mkRec "a"), some (mkRec "a")]

/-- Per-track provider that answers a record for an id that was never
asked for. -/
def unrelatedDC : ProviderDC := fun _ => Except.ok [some (mkRec "zzz")]

/-- The provider behaviour of the spec's worked scenario: succeeds for
chunk `[a, b]` with records for `a` and `b`, fails for chunk `[c, d]`,
succeeds for chunk `[e]` with a record for `e`. -/
def scenAC : ProviderAC := fun c =>
  if c = ["a", "b"] then Except.ok [some (mkRec "a"), some (mkRec "b")]
  else if c = ["c", "d"] then Except.error "boom"
  else if c = ["e"] then Except.ok [some (mkRec "e")]
  else Except.ok []

/-- The scenario provider with the failing chunk renamed to `[x, y]`. -/
def scenAC2 : ProviderAC := fun c =>
  if c = ["a", "b"] then Except.ok [some (mkRec "a"), some (mkRec "b")]
  else if c = ["x", "y"] then Except.error "boom"
  else if c = ["e"] then Except.ok [some (mkRec "e")]
  else Except.ok []

/-- Python `s.strip()`: surrounding whitespace removed. -/
def pyStrip (s : String) : String :=
  String.mk (((s.toList.dropWhile Char.isWhitespace).reverse.dropWhile Char.isWhitespace).reverse)

/-- Helper for `pySplitComma`: split the remaining characters at every
comma, the characters of the current piece held reversed in `acc`. -/
def pySplitCommaAux : List Char → List Char → List String
  | [], acc => [String.mk acc.reverse]
  | c :: cs, acc =>
    if c = ',' then String.mk acc.reverse :: pySplitCommaAux cs []
    else pySplitCommaAux cs (c :: acc)

/-- Python `s.split(',')`: the pieces between commas (an empty string
yields `['']`). -/
def pySplitComma (s : String) : List String :=
  pySplitCommaAux s.toList []

/-- The genre-extraction loop of `collect_and_save_user_data`
(data_collection.py, lines 228-231): for each cell of the artists'
`genres` column, if it is not NaN (`pd.notna`) and strips to a non-empty
string, extend `genres` with `[g.strip() for g in genre_str.split(',')]`. -/
def extractGenres : List (Option String) → List String
  | [] => []
  | none :: rest => extractGenres rest
  | some s :: rest =>
    if pyStrip s = "" then extractGenres rest
    else (pySplitComma s).map pyStrip ++ extractGenres rest

/-- The names visible inside `collect_and_save_user_data`: the locals it
assigns (`top_tracks_df`, `top_artists_df`, `track_ids`,
`audio_features_df`, `tracks_with_features`, `genres`, `genre_str`,
`genre_counts`, `valid_seed_genres`, `valid_genres`,
`recommendations_df`, the handler variables `e`) together with
data_collection.py's module-level bindings (`os`, `pd`, `time`,
`get_spotify_client`, and the five functions the module defines).
Evaluating any other name raises `NameError`. -/
def collectScopeNames : List String :=
  ["top_tracks_df", "top_artists_df", "track_ids", "audio_features_df",
   "tracks_with_features", "genres", "genre_str", "genre_counts",
   "valid_seed_genres", "valid_genres", "recommendations_df", "e",
   "os", "pd", "time", "get_spotify_client", "get_user_top_items",
   "get_audio_features", "get_genre_recommendations", "save_data",
   "collect_and_save_user_data"]

/-- The inputs `collect_and_save_user_data` works from: the user's top
track ids, the `genres` column of the top-artists DataFrame (one
possibly-NaN comma-joined string per artist), and the per-track feature
provider the audio-features step uses. -/
structure CollectInputs where
  trackIds : List String
  artistGenres : List (Option String)
  provider : ProviderDC

/-- Observable outcome of one run of `collect_and_save_user_data`: the
CSV files it saved, in order, the messages its exception handlers
printed, and whether the call raised to its caller. -/
structure CollectResult where
  savedFiles : List String
  errorLog : List String
  raised : Bool
deriving DecidableEq, Repr

/-- data_collection.py's `collect_and_save_user_data` (lines 201-258):
saves `top_tracks.csv` and `top_artists.csv`, collects audio features
(saving `tracks_with_features.csv` when the features DataFrame is
non-empty), extracts genres from the top-artists data, and — when at
least one genre was extracted — evaluates
`spotify.recommendation_genre_seeds()` (line 239).  The name `spotify`
is not in `collectScopeNames`, so that evaluation raises `NameError`,
which the catch-all handler at line 257 prints and swallows; the
function returns normally and `recommendations.csv` is never saved.
The branch guarded by `collectScopeNames.contains "spotify"` records
what the source would do if the name were bound. -/
def collect_and_save_user_data (inp : CollectInputs) : CollectResult :=
  let afterFeatures :=
    if (dc_get_audio_features inp.provider inp.trackIds).isEmpty then
      ["top_tracks.csv", "top_artists.csv"]
    else
      ["top_tracks.csv", "top_artists.csv", "tracks_with_features.csv"]
  let genres := extractGenres inp.artistGenres
  if genres.isEmpty then
    ⟨afterFeatures, [], false⟩
  else
    if collectScopeNames.contains "spotify" then
      ⟨afterFeatures ++ ["recommendations.csv"], [], false⟩
    else
      ⟨afterFeatures, ["Error during data collection: name spotify is not defined"], false⟩

/-! ## Chunking lemmas -/

lemma chunkListFuel_congr (k : Nat) :
    ∀ (f g : Nat) (l : List α), l.length ≤ f → l.length ≤ g →
      chunkListFuel k f l = chunkListFuel k g l := by
  intro f
  induction f with
  | zero =>
    intro g l hf _
    have hl : l = [] := List.eq_nil_of_length_eq_zero (Nat.le_zero.mp hf)
    subst hl
    cases g <;> rfl
  | succ f ih =>
    intro g l hf hg
    cases l with
    | nil => cases g <;> rfl
    | cons a l =>
      cases g with
      | zero => simp at hg
      | succ g =>
        simp only [chunkListFuel]
        congr 1
        apply ih
        · calc (l.drop (k - 1)).length ≤ l.length := by
                rw [List.length_drop]; omega
            _ ≤ f := by simp at hf; omega
        · calc (l.drop (k - 1)).length ≤ l.length := by
                rw [List.length_drop]; omega
            _ ≤ g := by simp at hg; omega

lemma chunkList_nil (k : Nat) : chunkList k ([] : List α) = [] := rfl

lemma chunkList_cons (k : Nat) (a : α) (l : List α) :
    chunkList k (a :: l) = (a :: l.take (k - 1)) :: chunkList k (l.drop (k - 1)) := by
  show chunkListFuel k (l.length + 1) (a :: l) = _
  simp only [chunkListFuel]
  congr 1
  exact chunkListFuel_congr k l.length (l.drop (k - 1)).length (l.drop (k - 1))
    (by rw [List.length_drop]; omega) le_rfl

lemma chunkList_flatten_aux (k : Nat) :
    ∀ (n : Nat) (l : List α), l.length ≤ n → (chunkList k l).flatten = l := by
  intro n
  induction n with
  | zero =>
    intro l h
    have hl : l = [] := List.eq_nil_of_length_eq_zero (Nat.le_zero.mp h)
    subst hl; rfl
  | succ n ih =>
    intro l h
    cases l with
    | nil => rfl
    | cons a l =>
      rw [chunkList_cons, List.flatten_cons,
        ih (l.drop (k - 1)) (by rw [List.length_drop]; simp at h; omega),
        List.cons_append, List.take_append_drop]

/-- The chunk sequence is a partition of the input: concatenating the
chunks gives back the input, in order. -/
lemma chunkList_flatten (k : Nat) (l : List α) : (chunkList k l).flatten = l :=
  chunkList_flatten_aux k l.length l le_rfl

lemma chunkList_length_aux (k : Nat) (hk : 1 ≤ k) :
    ∀ (n : Nat) (l : List α), l.length ≤ n →
      (chunkList k l).length = (l.length + k - 1) / k := by
  intro n
  induction n with
  | zero =>
    intro l h
    have hl : l = [] := List.eq_nil_of_length_eq_zero (Nat.le_zero.mp h)
    subst hl
    simp [chunkList_nil, Nat.div_eq_of_lt (show k - 1 < k by omega)]
  | succ n ih =>
    intro l h
    cases l with
    | nil => simp [chunkList_nil, Nat.div_eq_of_lt (show k - 1 < k by omega)]
    | cons a l =>
      rw [chunkList_cons, List.length_cons,
        ih (l.drop (k - 1)) (by rw [List.length_drop]; simp at h; omega),
        List.length_drop]
      simp only [List.length_cons]
      rcases Nat.le_total l.length (k - 1) with hm | hm
      · have h1 : l.length - (k - 1) + k - 1 = k - 1 := by omega
        have h2 : l.length + 1 + k - 1 = l.length + k := by omega
        rw [h1, h2, Nat.div_eq_of_lt (show k - 1 < k by omega),
          Nat.add_div_right _ (show 0 < k by omega),
          Nat.div_eq_of_lt (show l.length < k by omega)]
      · have h1 : l.length - (k - 1) + k - 1 = l.length := by omega
        have h2 : l.length + 1 + k - 1 = l.length + k := by omega
        rw [h1, h2, Nat.add_div_right _ (show 0 < k by omega)]

/-- The number of chunks is `⌈|l| / k⌉`. -/
lemma chunkList_length (k : Nat) (hk : 1 ≤ k) (l : List α) :
    (chunkList k l).length = (l.length + k - 1) / k :=
  chunkList_length_aux k hk l.length l le_rfl

lemma chunkList_chunk_length_aux (k : Nat) (hk : 1 ≤ k) :
    ∀ (n : Nat) (l : List α) (c : List α), l.length ≤ n →
      c ∈ chunkList k l → c.length ≤ k := by
  intro n
  induction n with
  | zero =>
    intro l c h hc
    have hl : l = [] := List.eq_nil_of_length_eq_zero (Nat.le_zero.mp h)
    subst hl; simp [chunkList_nil] at hc
  | succ n ih =>
    intro l c h hc
    cases l with
    | nil => simp [chunkList_nil] at hc
    | cons a l =>
      rw [chunkList_cons] at hc
      rcases List.mem_cons.mp hc with hc | hc
      · subst hc
        simp only [List.length_cons, List.length_take]
        omega
      · exact ih (l.drop (k - 1)) c (by rw [List.length_drop]; simp at h; omega) hc

/-- Every chunk holds at most `k` elements. -/
lemma chunkList_chunk_length (k : Nat) (hk : 1 ≤ k) (l : List α) (c : List α)
    (hc : c ∈ chunkList k l) : c.length ≤ k :=
  chunkList_chunk_length_aux k hk l.length l c le_rfl hc

/-! ## Run lemmas for audio_check.py's fetch -/

lemma acFetchK_eq (k : Nat) (p : ProviderAC) (ids : List String) :
    acFetchK k p ids = acRunChunks p 1 (chunkList k ids) := by
  cases ids with
  | nil => rfl
  | cons a l => rfl

lemma acRunChunks_calls (p : ProviderAC) (idx : Nat) (cs : List (List String)) :
    (acRunChunks p idx cs).calls = cs.map (fun c => c.filter (fun tid => !(tid == ""))) := by
  induction cs generalizing idx with
  | nil => rfl
  | cons c cs ih =>
    cases hp : p (c.filter (fun tid => !(tid == ""))) with
    | ok l => simp [acRunChunks, hp, ih]
    | error e => simp [acRunChunks, hp, ih]

lemma acRunChunks_features (p : ProviderAC) (idx : Nat) (cs : List (List String)) :
    (acRunChunks p idx cs).features
      = (cs.map (fun c => okRecords (p (c.filter (fun tid => !(tid == "")))))).flatten := by
  induction cs generalizing idx with
  | nil => rfl
  | cons c cs ih =>
    cases hp : p (c.filter (fun tid => !(tid == ""))) with
    | ok l => simp [acRunChunks, hp, ih, okRecords]
    | error e => simp [acRunChunks, hp, ih, okRecords]

lemma acRunChunks_log_length (p : ProviderAC) (idx : Nat) (cs : List (List String)) :
    (acRunChunks p idx cs).log.length
      = (cs.filter (fun c => isErrResp (p (c.filter (fun tid => !(tid == "")))))).length := by
  induction cs generalizing idx with
  | nil => rfl
  | cons c cs ih =>
    cases hp : p (c.filter (fun tid => !(tid == ""))) with
    | ok l => simp [acRunChunks, hp, ih, isErrResp, List.filter]
    | error e => simp [acRunChunks, hp, ih, isErrResp, List.filter]

/-! ## Run lemmas for data_collection.py's fetch -/

lemma dcFetchK_eq (k : Nat) (q : ProviderDC) (ids : List String) :
    dcFetchK k q ids = dcRunChunks q (chunkList k ids) := by
  cases ids with
  | nil => rfl
  | cons a l => rfl

lemma dcRunTracks_calls (q : ProviderDC) (ts : List String) :
    (dcRunTracks q ts).calls = ts := by
  induction ts with
  | nil => rfl
  | cons t ts ih => simp [dcRunTracks, ih]

lemma dcRunTracks_features (q : ProviderDC) (ts : List String) :
    (dcRunTracks q ts).features = ts.filterMap (fun t => (dcTrackStep q t).1) := by
  induction ts with
  | nil => rfl
  | cons t ts ih =>
    simp only [dcRunTracks, List.filterMap_cons, ih]
    cases (dcTrackStep q t).1 <;> simp

lemma dcRunTracks_log (q : ProviderDC) (ts : List String) :
    (dcRunTracks q ts).log = (ts.map (fun t => (dcTrackStep q t).2)).flatten := by
  induction ts with
  | nil => rfl
  | cons t ts ih => simp [dcRunTracks, ih]

lemma dcRunChunks_calls (q : ProviderDC) (cs : List (List String)) :
    (dcRunChunks q cs).calls = cs.flatten := by
  induction cs with
  | nil => rfl
  | cons c cs ih => simp [dcRunChunks, dcRunTracks_calls, ih]

lemma dcRunChunks_features (q : ProviderDC) (cs : List (List String)) :
    (dcRunChunks q cs).features = cs.flatten.filterMap (fun t => (dcTrackStep q t).1) := by
  induction cs with
  | nil => rfl
  | cons c cs ih =>
    simp [dcRunChunks, dcRunTracks_features, ih, List.filterMap_append]

lemma dcRunChunks_log (q : ProviderDC) (cs : List (List String)) :
    (dcRunChunks q cs).log = (cs.flatten.map (fun t => (dcTrackStep q t).2)).flatten := by
  induction cs with
  | nil => rfl
  | cons c cs ih => simp [dcRunChunks, dcRunTracks_log, ih]

/-! ## Top-level fetch lemmas -/

lemma dcFetchK_calls (k : Nat) (q : ProviderDC) (ids : List String) :
    (dcFetchK k q ids).calls = ids := by
  rw [dcFetchK_eq, dcRunChunks_calls, chunkList_flatten]

lemma dcFetchK_features (k : Nat) (q : ProviderDC) (ids : List String) :
    (dcFetchK k q ids).features = ids.filterMap (fun t => (dcTrackStep q t).1) := by
  rw [dcFetchK_eq, dcRunChunks_features, chunkList_flatten]

lemma dcFetchK_log (k : Nat) (q : ProviderDC) (ids : List String) :
    (dcFetchK k q ids).log = (ids.map (fun t => (dcTrackStep q t).2)).flatten := by
  rw [dcFetchK_eq, dcRunChunks_log, chunkList_flatten]

lemma acFetchK_calls (k : Nat) (p : ProviderAC) (ids : List String) :
    (acFetchK k p ids).calls
      = (chunkList k ids).map (fun c => c.filter (fun tid => !(tid == ""))) := by
  rw [acFetchK_eq, acRunChunks_calls]

lemma acFetchK_features (k : Nat) (p : ProviderAC) (ids : List String) :
    (acFetchK k p ids).features
      = ((chunkList k ids).map (fun c => okRecords (p (c.filter (fun tid => !(tid == "")))))).flatten := by
  rw [acFetchK_eq, acRunChunks_features]

lemma acFetchK_log_length (k : Nat) (p : ProviderAC) (ids : List String) :
    (acFetchK k p ids).log.length
      = ((chunkList k ids).filter
          (fun c => isErrResp (p (c.filter (fun tid => !(tid == "")))))).length := by
  rw [acFetchK_eq, acRunChunks_log_length]

/-! ## Helper lemmas about failing providers -/

lemma okRecords_of_err (r : Except String (List (Option FeatureRecord)))
    (h : isErrResp r = true) : okRecords r = [] := by
  cases r with
  | ok l => simp [isErrResp] at h
  | error e => rfl

lemma dcTrackStep_err (q : ProviderDC) (t : String) (h : isErrResp (q t) = true) :
    (dcTrackStep q t).1 = none ∧ (dcTrackStep q t).2.length = 1 := by
  cases hq : q t with
  | ok l => rw [hq] at h; simp [isErrResp] at h
  | error e => simp [dcTrackStep, hq]

lemma flatten_eq_nil_of_forall {α : Type} (L : List (List α))
    (h : ∀ x ∈ L, x = []) : L.flatten = [] := by
  induction L with
  | nil => rfl
  | cons x L ih =>
    rw [List.flatten_cons, h x (List.mem_cons_self x L), List.nil_append]
    exact ih (fun y hy => h y (List.mem_cons_of_mem x hy))

lemma filterMap_eq_nil_of_forall {α β : Type} (f : α → Option β) (l : List α)
    (h : ∀ a ∈ l, f a = none) : l.filterMap f = [] := by
  induction l with
  | nil => rfl
  | cons a l ih =>
    rw [List.filterMap_cons, h a (List.mem_cons_self a l)]
    exact ih (fun b hb => h b (List.mem_cons_of_mem a hb))

lemma length_flatten_map_of_forall_one {α β : Type} (f : α → List β) (l : List α)
    (h : ∀ a ∈ l, (f a).length = 1) : ((l.map f).flatten).length = l.length := by
  induction l with
  | nil => rfl
  | cons a l ih =>
    rw [List.map_cons, List.flatten_cons, List.length_append,
      h a (List.mem_cons_self a l), ih (fun b hb => h b (List.mem_cons_of_mem a hb)),
      List.length_cons, Nat.add_comm]

/-! ## Claims -/

/-- C1 counterexample: data_collection.py's `get_audio_features` on the
non-empty input `["a", "b"]` (chunk size 10) invokes the provider twice
— once per track — not `ceil(2 / 10) = 1` times as the claim states. -/
theorem dc_fetch_call_count_counterexample :
    (dcFetch okEmptyDC ["a", "b"]).calls.length ≠ (["a", "b"].length + 10 - 1) / 10 := by
  decide

/-- C1 (amended): for non-empty ids and chunk size `k ≥ 1`,
audio_check.py's fetch invokes the provider exactly `ceil(|ids| / k)`
times (once per chunk), while data_collection.py's fetch invokes the
provider exactly `|ids|` times (once per track). -/
theorem fetch_provider_call_counts (k : Nat) (p : ProviderAC) (q : ProviderDC)
    (ids : List String) (hk : 1 ≤ k) (_hne : ids ≠ []) :
    (acFetchK k p ids).calls.length = (ids.length + k - 1) / k ∧
    (dcFetchK k q ids).calls.length = ids.length := by
  constructor
  · rw [acFetchK_calls, List.length_map, chunkList_length k hk]
  · rw [dcFetchK_calls]

/-- C1 witness: the amended call counts at chunk size 2 on a three-id
input: two chunk calls for audio_check.py, three per-track calls for
data_collection.py. -/
theorem fetch_provider_call_counts_inst :
    (acFetchK 2 okEmptyAC ["a", "b", "c"]).calls.length = (["a", "b", "c"].length + 2 - 1) / 2 ∧
    (dcFetchK 2 okEmptyDC ["a", "b", "c"]).calls.length = ["a", "b", "c"].length :=
  fetch_provider_call_counts 2 okEmptyAC okEmptyDC ["a", "b", "c"] (by decide) (by decide)

/-- C2 counterexample: with a provider that fails every request, the
value either fetch returns is the empty DataFrame and is **identical**
for the distinct inputs `["a"]` and `["b"]`; it therefore contains no
failure set equal to the input id set (the claim would require the two
results to differ, recording `{a}` and `{b}` respectively). -/
theorem all_failed_result_carries_no_failure_set :
    ac_get_audio_features failAC ["a"] = ac_get_audio_features failAC ["b"] ∧
    ac_get_audio_features failAC ["a"] = [] ∧
    dc_get_audio_features failDC ["a"] = dc_get_audio_features failDC ["b"] ∧
    dc_get_audio_features failDC ["a"] = [] := by
  decide

/-- C2 (amended): if the provider fails for every request, both fetches
return an empty success sequence; the failed ids are not part of the
returned value — each failure is only printed, one log line per chunk
for audio_check.py (naming only the batch number) and one log line per
track for data_collection.py. -/
theorem all_failed_fetch_empty_success (p : ProviderAC) (q : ProviderDC)
    (ids : List String)
    (hp : ∀ c, isErrResp (p c) = true) (hq : ∀ t, isErrResp (q t) = true) :
    ac_get_audio_features p ids = [] ∧
    dc_get_audio_features q ids = [] ∧
    (acFetch p ids).log.length = (chunkList 20 ids).length ∧
    (dcFetch q ids).log.length = ids.length := by
  refine ⟨?_, ?_, ?_, ?_⟩
  · rw [ac_get_audio_features, acFetch, acFetchK_features]
    exact flatten_eq_nil_of_forall _ (by
      intro x hx
      rcases List.mem_map.mp hx with ⟨c, _, rfl⟩
      exact okRecords_of_err _ (hp _))
  · rw [dc_get_audio_features, dcFetch, dcFetchK_features]
    exact filterMap_eq_nil_of_forall _ _ (fun t _ => (dcTrackStep_err q t (hq t)).1)
  · rw [acFetch, acFetchK_log_length]
    congr 1
    exact List.filter_eq_self.mpr (fun c _ => hp _)
  · rw [dcFetch, dcFetchK_log]
    exact length_flatten_map_of_forall_one _ _ (fun t _ => (dcTrackStep_err q t (hq t)).2)

/-- C2 witness: the amended behaviour on the input `["a"]` against
always-failing providers. -/
theorem all_failed_fetch_empty_success_inst :
    ac_get_audio_features failAC ["a"] = [] ∧
    dc_get_audio_features failDC ["a"] = [] ∧
    (acFetch failAC ["a"]).log.length = (chunkList 20 ["a"]).length ∧
    (dcFetch failDC ["a"]).log.length = ["a"].length :=
  all_failed_fetch_empty_success failAC failDC ["a"] (fun _ => rfl) (fun _ => rfl)

/-- C3: for every provider behaviour, each fetch performs exactly one
provider invocation per chunk (audio_check.py) or per track
(data_collection.py), in input order, independent of which invocations
fail: no failure aborts the run, no failed chunk is retried, and —
being total Lean functions — both fetches always return a result
instead of raising. -/
theorem fetch_invokes_every_chunk_once (p : ProviderAC) (q : ProviderDC)
    (ids : List String) :
    (acFetch p ids).calls
      = (chunkList 20 ids).map (fun c => c.filter (fun tid => !(tid == ""))) ∧
    (dcFetch q ids).calls = ids :=
  ⟨acFetchK_calls 20 p ids, dcFetchK_calls 10 q ids⟩

/-- C4 counterexample: the fetches append whatever records the provider
returns.  A provider answering a record with id `zzz` for the input
`["a"]` puts `zzz` — not a member of the input — into the success
sequence of both implementations, and a provider answering the same
record twice duplicates it in the success sequence. -/
theorem success_ids_not_validated :
    (ac_get_audio_features unrelatedAC ["a"]).map FeatureRecord.id = ["zzz"] ∧
    "zzz" ∉ (["a"] : List String) ∧
    (dc_get_audio_features unrelatedDC ["a"]).map FeatureRecord.id = ["zzz"] ∧
    ac_get_audio_features dupAC ["a"] = [mkRec "a", mkRec "a"] := by
  decide

/-- C4 (amended): the fetches perform no validation or deduplication of
the provider's records; membership of every success id in the input
holds only under the assumption that the provider answers, for each
queried chunk (resp. track), only records whose id lies in that chunk
(resp. equals that track). -/
theorem success_ids_subset_for_faithful_provider (p : ProviderAC) (q : ProviderDC)
    (ids : List String)
    (hp : ∀ c l, p c = Except.ok l → ∀ r : FeatureRecord, some r ∈ l → r.id ∈ c)
    (hq : ∀ t l, q t = Except.ok l → ∀ r : FeatureRecord, some r ∈ l → r.id = t) :
    (∀ r ∈ ac_get_audio_features p ids, r.id ∈ ids) ∧
    (∀ r ∈ dc_get_audio_features q ids, r.id ∈ ids) := by
  constructor
  · intro r hr
    rw [ac_get_audio_features, acFetch, acFetchK_features] at hr
    rcases List.mem_flatten.mp hr with ⟨l, hl, hrl⟩
    rcases List.mem_map.mp hl with ⟨c, hc, rfl⟩
    cases hpc : p (c.filter (fun tid => !(tid == ""))) with
    | error e => rw [okRecords_of_err _ (by rw [hpc]; rfl)] at hrl; cases hrl
    | ok lst =>
      rw [hpc] at hrl
      rcases List.mem_filterMap.mp hrl with ⟨o, ho, hor⟩
      have hro : some r ∈ lst := by
        have : o = some r := hor
        exact this ▸ ho
      have hid : r.id ∈ c.filter (fun tid => !(tid == "")) := hp _ _ hpc r hro
      have hidc : r.id ∈ c := List.mem_of_mem_filter hid
      have : r.id ∈ (chunkList 20 ids).flatten := List.mem_flatten.mpr ⟨c, hc, hidc⟩
      rwa [chunkList_flatten] at this
  · intro r hr
    rw [dc_get_audio_features, dcFetch, dcFetchK_features] at hr
    rcases List.mem_filterMap.mp hr with ⟨t, ht, hstep⟩
    cases hqt : q t with
    | error e => rw [dcTrackStep, hqt] at hstep; cases hstep
    | ok lst =>
      cases lst with
      | nil => rw [dcTrackStep, hqt] at hstep; cases hstep
      | cons o rest =>
        cases o with
        | none => rw [dcTrackStep, hqt] at hstep; cases hstep
        | some f =>
          rw [dcTrackStep, hqt] at hstep
          have hf : f = r := by
            have := hstep
            simpa using this
          have : r.id = t := hq t _ hqt r (by rw [← hf]; exact List.mem_cons_self _ _)
          exact this ▸ ht

/-- C4 witness: the amended membership property applied to the echo
providers (which answer exactly the queried ids) on input `["a", "b"]`,
instantiated at the record for `a`. -/
theorem success_ids_subset_for_faithful_provider_inst :
    (mkRec "a").id ∈ (["a", "b"] : List String) :=
  (success_ids_subset_for_faithful_provider echoAC echoDC ["a", "b"]
    (by
      intro c l hl r hr
      have hle : l = c.map (fun t => some (mkRec t)) := by
        have := hl
        rw [echoAC] at this
        exact (Except.ok.inj this).symm
      subst hle
      rcases List.mem_map.mp hr with ⟨t, htc, hEq⟩
      have : mkRec t = r := Option.some.inj hEq
      rw [← this]
      exact htc)
    (by
      intro t l hl r hr
      have hle : l = [some (mkRec t)] := by
        have := hl
        rw [echoDC] at this
        exact (Except.ok.inj this).symm
      subst hle
      have hrt : r = mkRec t := by simpa using hr
      rw [hrt]
      rfl)).1
    (mkRec "a") (by decide)

/-- C5 counterexample: in the spec's scenario (`ids = [a,b,c,d,e]`,
chunk size 2, provider succeeding for `[a,b]` and `[e]`, failing for
`[c,d]`), the fetch's returned DataFrame and printed log are
**identical** to those of a run whose failing chunk holds the different
ids `x, y` — so the result contains no failure set `{c, d}` (the claim
would require the two outcomes to differ); only the success part
`[a, b, e]` of the scenario holds. -/
theorem scenario_result_carries_no_failure_set :
    (acFetchK 2 scenAC ["a", "b", "c", "d", "e"]).features
      = (acFetchK 2 scenAC2 ["a", "b", "x", "y", "e"]).features ∧
    (acFetchK 2 scenAC ["a", "b", "c", "d", "e"]).log
      = (acFetchK 2 scenAC2 ["a", "b", "x", "y", "e"]).log ∧
    (acFetchK 2 scenAC ["a", "b", "c", "d", "e"]).features.map FeatureRecord.id
      = ["a", "b", "e"] := by
  decide

/-- C5 (amended): the fetch partitions its input into consecutive chunks
of at most `chunk_size` elements preserving the original order, and in
the spec's scenario the returned success sequence is the records for
`a, b, e` in that order; the failed chunk is reported only as the
printed line `Error processing batch 2: boom`, not as a failure set in
the returned value. -/
theorem chunking_and_scenario_success_order (k : Nat) (hk : 1 ≤ k)
    (ids : List String) :
    ((chunkList k ids).flatten = ids ∧ ∀ c ∈ chunkList k ids, c.length ≤ k) ∧
    (acFetchK 2 scenAC ["a", "b", "c", "d", "e"]).features.map FeatureRecord.id
      = ["a", "b", "e"] ∧
    (acFetchK 2 scenAC ["a", "b", "c", "d", "e"]).log
      = ["Error processing batch 2: boom"] :=
  ⟨⟨chunkList_flatten k ids, fun c hc => chunkList_chunk_length k hk ids c hc⟩,
   by decide, by decide⟩

/-- C5 witness: the amended statement at chunk size 2 on the scenario
input, projected to its closed parts. -/
theorem chunking_and_scenario_success_order_inst :
    (chunkList 2 ["a", "b", "c", "d", "e"]).flatten = ["a", "b", "c", "d", "e"] ∧
    (acFetchK 2 scenAC ["a", "b", "c", "d", "e"]).features.map FeatureRecord.id
      = ["a", "b", "e"] :=
  ⟨(chunking_and_scenario_success_order 2 (by decide) ["a", "b", "c", "d", "e"]).1.1,
   (chunking_and_scenario_success_order 2 (by decide) ["a", "b", "c", "d", "e"]).2.1⟩

/-- C6 counterexample: neither implementation removes duplicate ids —
audio_check.py passes the chunk `["a", "a"]` with a duplicate to the
provider — and data_collection.py does not filter at all: it passes the
empty-string id `""` to the provider. -/
theorem ids_not_filtered_before_chunking :
    (acFetch okEmptyAC ["a", "a"]).calls = [["a", "a"]] ∧
    (dcFetch okEmptyDC [""]).calls = [""] := by
  decide

/-- C6 (amended): audio_check.py removes falsy (empty-string) ids from
each chunk after partitioning, so no provider call of its fetch contains
an empty-string id; duplicates are not removed, and data_collection.py
filters nothing — its provider calls are exactly the input ids,
empty strings and duplicates included. -/
theorem ac_calls_contain_no_empty_id (p : ProviderAC) (q : ProviderDC)
    (ids : List String) (c : List String) (t : String)
    (hc : c ∈ (acFetch p ids).calls) (ht : t ∈ c) :
    t ≠ "" ∧ (dcFetch q ids).calls = ids := by
  refine ⟨?_, dcFetchK_calls 10 q ids⟩
  rw [acFetch, acFetchK_calls] at hc
  rcases List.mem_map.mp hc with ⟨c0, _, rfl⟩
  have := List.of_mem_filter ht
  simpa using this

/-- C6 witness: the amended statement on the input `["", "b"]`: the one
audio_check.py provider call is `["b"]`, whose element is non-empty,
while data_collection.py's calls are the unfiltered input. -/
theorem ac_calls_contain_no_empty_id_inst :
    "b" ≠ "" ∧ (dcFetch okEmptyDC ["", "b"]).calls = ["", "b"] :=
  ac_calls_contain_no_empty_id okEmptyAC okEmptyDC ["", "b"] ["b"] "b"
    (by decide) (by decide)

/-- C7: on an empty id list both fetches return the empty result
immediately — no collected features, no provider invocations, no log
output — matching the early `return empty_df` of both sources. -/
theorem empty_input_no_provider_calls (p : ProviderAC) (q : ProviderDC) :
    acFetch p [] = ⟨[], [], []⟩ ∧ dcFetch q [] = ⟨[], [], []⟩ :=
  ⟨rfl, rfl⟩

/-- C8: both fetches are deterministic functions of the input ids and
the provider's responses and keep no state across invocations (they are
plain functions of their arguments in this embedding): two runs against
providers returning identical data yield identical results, record
order included. -/
theorem fetch_deterministic (p p' : ProviderAC) (q q' : ProviderDC)
    (ids : List String)
    (hp : ∀ c, p c = p' c) (hq : ∀ t, q t = q' t) :
    acFetch p ids = acFetch p' ids ∧ dcFetch q ids = dcFetch q' ids := by
  have hpe : p = p' := funext hp
  have hqe : q = q' := funext hq
  rw [hpe, hqe]
  exact ⟨rfl, rfl⟩

/-- C8 witness: two identical runs on the input `["a"]` coincide. -/
theorem fetch_deterministic_inst :
    acFetch okEmptyAC ["a"] = acFetch okEmptyAC ["a"] ∧
    dcFetch okEmptyDC ["a"] = dcFetch okEmptyDC ["a"] :=
  fetch_deterministic okEmptyAC okEmptyAC okEmptyDC okEmptyDC ["a"]
    (fun _ => rfl) (fun _ => rfl)

/-- C9: the success sequence is exactly the concatenation, in chunk
order, of the non-null records of each successful provider response
(`okRecords` keeps the non-null entries in order and is empty for a
failed response), and the log depends only on the failed requests — so
null entries of a successful response appear neither among the collected
features nor in the log.  For data_collection.py the same holds per
track via `dcTrackStep`. -/
theorem success_records_from_provider_responses (p : ProviderAC) (q : ProviderDC)
    (ids : List String) :
    (acFetch p ids).features
      = ((chunkList 20 ids).map
          (fun c => okRecords (p (c.filter (fun tid => !(tid == "")))))).flatten ∧
    (acFetch p ids).log.length
      = ((chunkList 20 ids).filter
          (fun c => isErrResp (p (c.filter (fun tid => !(tid == "")))))).length ∧
    (dcFetch q ids).features = ids.filterMap (fun t => (dcTrackStep q t).1) ∧
    (dcFetch q ids).log = (ids.map (fun t => (dcTrackStep q t).2)).flatten :=
  ⟨acFetchK_features 20 p ids, acFetchK_log_length 20 p ids,
   dcFetchK_features 10 q ids, dcFetchK_log 10 q ids⟩

/-- C10: whenever at least one non-empty genre is extracted from the
top-artists data, `collect_and_save_user_data` reaches line 239, whose
expression `spotify.recommendation_genre_seeds()` evaluates the name
`spotify` — absent from the function's scope (`collectScopeNames`) — so
a `NameError` is raised, caught by the catch-all handler at line 257:
the function returns normally (raised = false), `recommendations.csv`
is never written, and the handler's message is printed. -/
theorem collect_user_data_name_error (inp : CollectInputs)
    (h : extractGenres inp.artistGenres ≠ []) :
    (collect_and_save_user_data inp).raised = false ∧
    "recommendations.csv" ∉ (collect_and_save_user_data inp).savedFiles ∧
    (collect_and_save_user_data inp).errorLog
      = ["Error during data collection: name spotify is not defined"] := by
  have hg : (extractGenres inp.artistGenres).isEmpty = false := by
    cases hE : extractGenres inp.artistGenres with
    | nil => exact absurd hE h
    | cons a l => rfl
  have hs : collectScopeNames.contains "spotify" = false := by decide
  simp only [collect_and_save_user_data, hg, hs, Bool.false_eq_true, if_false]
  refine ⟨trivial, ?_, trivial⟩
  split <;> decide

/-- C10 witness: a run whose top-artists data yields the genre `rock`
ends with the NameError swallowed, no recommendations file, and the
handler's message logged. -/
theorem collect_user_data_name_error_inst :
    (collect_and_save_user_data ⟨["t1"], [some "rock"], okEmptyDC⟩).raised = false ∧
    "recommendations.csv" ∉
      (collect_and_save_user_data ⟨["t1"], [some "rock"], okEmptyDC⟩).savedFiles ∧
    (collect_and_save_user_data ⟨["t1"], [some "rock"], okEmptyDC⟩).errorLog
      = ["Error during data collection: name spotify is not defined"] :=
  collect_user_data_name_error ⟨["t1"], [some "rock"], okEmptyDC⟩ (by decide)
